import Mathlib

/-!
Shallow embedding of `library/modules/Military.cpp` (DFHack military module):
`Military::getSquadName`, `Military::makeSquad` and
`Military::updateRoomAssignments`, together with proofs of the specification
claims about them.

Host globals (`df::global::squad_next_id`, `plotinfo`, `cur_year`,
`cur_year_tick`, `world`) are modelled as `Option` fields of an explicit
state record; a C++ null-pointer dereference of one of them is modelled as
the whole operation returning `none` (a fault), while the ordinary
"return nullptr / do nothing" failure paths return `some` of an unchanged
state.  Machine integers are modelled as `Int` (no claim here depends on
32-bit overflow behaviour).
-/

set_option maxHeartbeats 1000000

/-- `df::language_name_type` — only the `Squad` kind is used by this module. -/
inductive NameType where
  | Squad
deriving Repr, DecidableEq

/-- `df::part_of_speech` — only `Noun` is used by this module. -/
inductive PartOfSpeech where
  | Noun
deriving Repr, DecidableEq

/-- `df::language_name`: the structured name record (7 word slots). -/
structure LanguageName where
  type : NameType
  words : List Int
  parts_of_speech : List PartOfSpeech
deriving Repr, DecidableEq

/-- `df::squad_position` — only the zero-initialised `flags.whole` matters here. -/
structure SquadPosition where
  flags : Nat
deriving Repr, DecidableEq

/-- `df::squad_order_trainst`: the training-order record referenced from a
schedule order (creation timestamp plus the reserved `unk_v40_3` field). -/
structure TrainOrder where
  year : Int
  year_tick : Int
  unk_v40_3 : Int
deriving Repr, DecidableEq

/-- `df::squad_schedule_order`: minimum participant count, the size of the
per-position assignment array (`positions.resize(squad_size)`), and the
referenced training order. -/
structure ScheduleOrder where
  min_count : Int
  positions_len : Nat
  order : TrainOrder
deriving Repr, DecidableEq

/-- `df::squad_schedule_entry`: one of the 12 month slots of a routine. -/
structure ScheduleEntry where
  sleep_mode : Int
  uniform_mode : Int
  orders : List ScheduleOrder
  order_assignments : List Int
deriving Repr, DecidableEq

/-- `df::squad::T_rooms`: squad-side room association (building id + flags).
`mode` is the raw `squad_use_flags.whole` bitfield value. -/
structure Room where
  building_id : Int
  mode : Nat
deriving Repr, DecidableEq

/-- `df::squad`: the fields `makeSquad` sets, plus `alias_`/`name` used by
`getSquadName` and `rooms` used by `updateRoomAssignments`. -/
structure Squad where
  id : Int
  alias_ : String
  name : LanguageName
  cur_routine_idx : Int
  uniform_priority : Int
  activity : Int
  carry_food : Int
  carry_water : Int
  entity_id : Int
  leader_position : Int
  leader_assignment : Int
  ammo_update : Int
  positions : List SquadPosition
  schedule : List (List ScheduleEntry)
  rooms : List Room
deriving Repr, DecidableEq

/-- `df::building_civzonest::T_squad_room_info`: zone-side room association. -/
structure RoomInfo where
  squad_id : Int
  mode : Nat
deriving Repr, DecidableEq

/-- `df::building`: id, whether `strict_virtual_cast<df::building_civzonest>`
succeeds on it, and (for civilian zones) the squad-room-info list. -/
structure Building where
  id : Int
  is_civzone : Bool
  squad_room_info : List RoomInfo
deriving Repr, DecidableEq

/-- `df::entity_position`: a government role with its configured squad size. -/
structure EntityPosition where
  id : Int
  squad_size : Int
deriving Repr, DecidableEq

/-- `df::entity_position_assignment`: a concrete filled/vacant role slot;
`squad_id = -1` means no squad fulfils it. -/
structure Assignment where
  id : Int
  position_id : Int
  squad_id : Int
deriving Repr, DecidableEq

/-- `df::historical_entity` restricted to what `makeSquad` touches:
`positions.assignments`, `positions.own` and the entity's `squads` id list. -/
structure Fort where
  id : Int
  assignments : List Assignment
  own : List EntityPosition
  squads : List Int
deriving Repr, DecidableEq

/-- `df::plotinfost` restricted to what `makeSquad` reads: the settlement
entity id (`group_id`) and the configured alert routine names
(`alerts.routines`, each routine contributing its `name`). -/
structure PlotInfo where
  group_id : Int
  routines : List String
deriving Repr, DecidableEq

/-- The host global state touched by the module.  `none` models a null
global pointer. `world` is `world->squads.all`, the global squad registry. -/
structure MilState where
  squad_next_id : Option Int
  plotinfo : Option PlotInfo
  entities : List Fort
  cur_year : Option Int
  cur_year_tick : Option Int
  world : Option (List Squad)
deriving Repr, DecidableEq

/-- `Military::getSquadName`: look the squad up by id in the registry;
absent squads give `""`; a non-empty alias is returned verbatim; otherwise
the structured name is rendered by the external translation service
(modelled as the function argument `translate`, called with
`englishOnly = true` as in the source).  The function is pure: it takes the
registry by value and returns only a string, so no state is mutated. -/
def getSquadName (translate : LanguageName → Bool → String)
    (squads : List Squad) (squad_id : Int) : String :=
  match squads.find? (fun sq => sq.id == squad_id) with
  | none => ""
  | some squad =>
      if squad.alias_.length > 0 then squad.alias_
      else translate squad.name true

/-- C5: name resolution of a missing squad id yields `""`; a squad with a
non-empty custom alias resolves to exactly that alias regardless of its
structured name; otherwise the result is the translation service's rendering
of the structured name.  (`getSquadName` is a pure function of the registry,
so no state is mutated in any case.) -/
theorem getSquadName_spec (translate : LanguageName → Bool → String)
    (squads : List Squad) (squad_id : Int) :
    (squads.find? (fun sq => sq.id == squad_id) = none →
      getSquadName translate squads squad_id = "") ∧
    (∀ squad, squads.find? (fun sq => sq.id == squad_id) = some squad →
      squad.alias_ ≠ "" →
      getSquadName translate squads squad_id = squad.alias_) ∧
    (∀ squad, squads.find? (fun sq => sq.id == squad_id) = some squad →
      squad.alias_ = "" →
      getSquadName translate squads squad_id = translate squad.name true) := by
  refine ⟨?_, ?_, ?_⟩
  · intro h
    simp [getSquadName, h]
  · intro squad h hne
    have hlen : squad.alias_.length > 0 := by
      rcases Nat.eq_zero_or_pos squad.alias_.length with h0 | hp
      · have h0d : squad.alias_.data.length = 0 := h0
        exact absurd (String.ext (List.length_eq_zero.mp h0d)) hne
      · exact hp
    simp [getSquadName, h, hlen]
  · intro squad h he
    simp [getSquadName, h, he]

/-- Replace the element at index `n` by `f` applied to it (out-of-range is a
no-op); models in-place mutation of `asched[index]` through the array. -/
def modifyAt (f : α → α) : Nat → List α → List α
  | _, [] => []
  | 0, a :: as => f a :: as
  | n + 1, a :: as => a :: modifyAt f n as

/-- The squad's 7-slot empty structured name built at the top of
`Military::makeSquad`: kind `Squad`, every word `-1`, every part of speech
`Noun`. -/
def squadName7 : LanguageName :=
  { type := NameType.Squad
    words := List.replicate 7 (-1)
    parts_of_speech := List.replicate 7 PartOfSpeech.Noun }

/-- A freshly placement-constructed `df::squad_schedule_entry` after the
`order_assignments` loop: default sleep/uniform modes (0), no orders, and
`squad_size` assignment cells each holding the `-1` sentinel. -/
def freshEntry (squad_size : Int) : ScheduleEntry :=
  { sleep_mode := 0
    uniform_mode := 0
    orders := []
    order_assignments := List.replicate squad_size.toNat (-1) }

/-- The lambda `insert_training_order` of `Military::makeSquad`: append a
schedule order with `min_count = squad_size`, a `positions` array resized to
`squad_size`, and a fresh training record timestamped with the current-time
globals and `unk_v40_3 = -1`; then force the slot's uniform-mode to 0. -/
def insertTrainingOrder (squad_size year tick : Int) (e : ScheduleEntry) :
    ScheduleEntry :=
  { e with
    orders := e.orders ++
      [{ min_count := squad_size
         positions_len := squad_size.toNat
         order := { year := year, year_tick := tick, unk_v40_3 := -1 } }]
    uniform_mode := 0 }

/-- One loop iteration of the training branches: `insert_training_order(i)`
followed by `asched[i].sleep_mode = 0`. -/
def trainEntry (squad_size year tick : Int) (e : ScheduleEntry) : ScheduleEntry :=
  { insertTrainingOrder squad_size year tick e with sleep_mode := 0 }

/-- Apply the training mutation at each index of `idx` in turn, exactly as
the C++ loops walk their index collections. -/
def applyTrainingAt (squad_size year tick : Int) (es : List ScheduleEntry)
    (idx : List Nat) : List ScheduleEntry :=
  idx.foldl (fun acc i => modifyAt (trainEntry squad_size year tick) i acc) es

/-- The 12-slot schedule-entry set `makeSquad` builds for one alert routine,
dispatching on the routine's name.  The staggered-parity test
`(*squad_next_id) & 1` is modelled as `next_id % 2 = 1`, which agrees with
the two's-complement low bit for every `Int`. -/
def buildRoutineSchedule (rname : String) (squad_size next_id year tick : Int) :
    List ScheduleEntry :=
  if rname = "Off duty" then
    (List.replicate 12 (freshEntry squad_size)).map
      (fun e => { e with sleep_mode := 0, uniform_mode := 1 })
  else if rname = "Staggered training" then
    applyTrainingAt squad_size year tick (List.replicate 12 (freshEntry squad_size))
      (if next_id % 2 = 1 then [3, 4, 5, 9, 10, 11] else [0, 1, 2, 6, 7, 8])
  else if rname = "Constant training" then
    applyTrainingAt squad_size year tick (List.replicate 12 (freshEntry squad_size))
      (List.range 12)
  else if rname = "Ready" then
    (List.replicate 12 (freshEntry squad_size)).map
      (fun e => { e with sleep_mode := 2, uniform_mode := 0 })
  else
    (List.replicate 12 (freshEntry squad_size)).map
      (fun e => { e with sleep_mode := 0, uniform_mode := 0 })

/-- The fully constructed squad record of `Military::makeSquad` just before
the commit step (lines 85-212 of the source). -/
def buildSquad (next_id : Int) (plot : PlotInfo) (cp : EntityPosition)
    (fa : Assignment) (year tick : Int) : Squad :=
  { id := next_id
    alias_ := ""
    name := squadName7
    cur_routine_idx := 0
    uniform_priority := next_id + 1
    activity := -1
    carry_food := 2
    carry_water := 1
    entity_id := plot.group_id
    leader_position := cp.id
    leader_assignment := fa.id
    ammo_update := 0
    positions := List.replicate cp.squad_size.toNat { flags := 0 }
    schedule := plot.routines.map
      (fun r => buildRoutineSchedule r cp.squad_size next_id year tick)
    rooms := [] }

/-- Does this routine's schedule construction call `insert_training_order`
(and hence dereference the `cur_year` / `cur_year_tick` globals)? -/
def routineTrains (rname : String) : Bool :=
  rname == "Staggered training" || rname == "Constant training"

/-- Replace, in place, the first entity whose id is `gid`. -/
def updateFirstFort (entities : List Fort) (gid : Int) (f : Fort → Fort) :
    List Fort :=
  match entities with
  | [] => []
  | e :: rest =>
      if e.id == gid then f e :: rest
      else e :: updateFirstFort rest gid f

/-- Set `squad_id` on the first assignment whose id is `aid` — the pointer
write `found_assignment->squad_id = result->id`. -/
def setAssignmentSquadId (assignments : List Assignment) (aid sid : Int) :
    List Assignment :=
  match assignments with
  | [] => []
  | a :: rest =>
      if a.id == aid then { a with squad_id := sid } :: rest
      else a :: setAssignmentSquadId rest aid sid

/-- Commit step 1: `(*df::global::squad_next_id)++`. -/
def incrementCounter (s : MilState) : MilState :=
  { s with squad_next_id := s.squad_next_id.map (· + 1) }

/-- Commit step 2: `fort->squads.push_back(result->id)`. -/
def appendEntitySquadId (s : MilState) (gid sid : Int) : MilState :=
  { s with entities :=
      updateFirstFort s.entities gid (fun f => { f with squads := f.squads ++ [sid] }) }

/-- Commit step 3: `df::global::world->squads.all.push_back(result)`. -/
def appendWorldSquad (s : MilState) (sq : Squad) : MilState :=
  { s with world := s.world.map (· ++ [sq]) }

/-- Commit step 4: `found_assignment->squad_id = result->id`. -/
def setAssignmentRef (s : MilState) (gid aid sid : Int) : MilState :=
  { s with entities :=
      (updateFirstFort s.entities gid
        (fun f => { f with assignments := setAssignmentSquadId f.assignments aid sid })) }

/-- The commit block of `Military::makeSquad` (lines 214-219), performing the
four mutations in source order. -/
def commitSquad (s : MilState) (gid aid : Int) (sq : Squad) : MilState :=
  setAssignmentRef
    (appendWorldSquad (appendEntitySquadId (incrementCounter s) gid sq.id) sq)
    gid aid sq.id

/-- `Military::makeSquad`.  Result `none` is a fault (a null dereference the
C++ performs unguarded: missing settlement entity, missing time globals while
a training routine is configured, or missing `world` at commit);
`some (none, s)` is the guarded "return nullptr" path, which leaves the state
unchanged; `some (some sq, s')` returns the new squad and the committed
state. -/
def makeSquad (s : MilState) (assignment_id : Int) :
    Option (Option Squad × MilState) :=
  match s.squad_next_id, s.plotinfo with
  | none, _ => some (none, s)
  | some _, none => some (none, s)
  | some next_id, some plot =>
    match s.entities.find? (fun f => f.id == plot.group_id) with
    | none => none
    | some fort =>
      match fort.assignments.find? (fun a => a.id == assignment_id) with
      | none => some (none, s)
      | some fa =>
        if fa.squad_id ≠ -1 then some (none, s)
        else
          match fort.own.find? (fun p => p.id == fa.position_id) with
          | none => some (none, s)
          | some cp =>
            if plot.routines.any routineTrains ∧
                (s.cur_year = none ∨ s.cur_year_tick = none) then none
            else
              match s.world with
              | none => none
              | some _ =>
                let sq := buildSquad next_id plot cp fa
                  (s.cur_year.getD 0) (s.cur_year_tick.getD 0)
                some (some sq, commitSquad s plot.group_id assignment_id sq)

theorem modifyAt_getElem? (f : α → α) :
    ∀ (j : Nat) (l : List α) (i : Nat),
      (modifyAt f j l)[i]? = if i = j then (l[j]?).map f else l[i]?
  | j, [], i => by simp [modifyAt]
  | 0, a :: as, 0 => by simp [modifyAt]
  | 0, a :: as, i + 1 => by simp [modifyAt]
  | j + 1, a :: as, 0 => by simp [modifyAt]
  | j + 1, a :: as, i + 1 => by
      simp [modifyAt, modifyAt_getElem? f j as i]

theorem applyTrainingAt_getElem? (ss y t : Int) :
    ∀ (idx : List Nat), idx.Nodup → ∀ (es : List ScheduleEntry) (i : Nat),
      (applyTrainingAt ss y t es idx)[i]? =
        if i ∈ idx then (es[i]?).map (trainEntry ss y t) else es[i]?
  | [], _, es, i => by simp [applyTrainingAt]
  | j :: rest, hnd, es, i => by
      have hj : j ∉ rest := (List.nodup_cons.mp hnd).1
      have hr := applyTrainingAt_getElem? ss y t rest (List.nodup_cons.mp hnd).2
        (modifyAt (trainEntry ss y t) j es) i
      show (applyTrainingAt ss y t (modifyAt (trainEntry ss y t) j es) rest)[i]? = _
      rw [hr, modifyAt_getElem?]
      by_cases hij : i = j
      · subst hij
        simp [hj]
      · simp [hij, List.mem_cons]

theorem makeSquad_success_inv {s : MilState} {aid : Int} {sq : Squad}
    {s' : MilState} (h : makeSquad s aid = some (some sq, s')) :
    ∃ next_id plot fort fa cp ws,
      s.squad_next_id = some next_id ∧
      s.plotinfo = some plot ∧
      s.entities.find? (fun f => f.id == plot.group_id) = some fort ∧
      fort.assignments.find? (fun a => a.id == aid) = some fa ∧
      fa.squad_id = -1 ∧
      fort.own.find? (fun p => p.id == fa.position_id) = some cp ∧
      s.world = some ws ∧
      sq = buildSquad next_id plot cp fa (s.cur_year.getD 0) (s.cur_year_tick.getD 0) ∧
      s' = commitSquad s plot.group_id aid sq := by
  unfold makeSquad at h
  cases hn : s.squad_next_id with
  | none => simp [hn] at h
  | some next_id =>
  cases hp : s.plotinfo with
  | none => simp [hn, hp] at h
  | some plot =>
  simp only [hn, hp] at h
  cases hf : s.entities.find? (fun f => f.id == plot.group_id) with
  | none => simp [hf] at h
  | some fort =>
  simp only [hf] at h
  cases ha : fort.assignments.find? (fun a => a.id == aid) with
  | none => simp [ha] at h
  | some fa =>
  simp only [ha] at h
  by_cases hsid : fa.squad_id = -1
  case neg => simp [hsid] at h
  simp only [hsid, ne_eq, not_true_eq_false, if_false, ite_false] at h
  cases hc : fort.own.find? (fun p => p.id == fa.position_id) with
  | none => simp [hc] at h
  | some cp =>
  simp only [hc] at h
  by_cases ht : plot.routines.any routineTrains = true ∧
      (s.cur_year = none ∨ s.cur_year_tick = none)
  case pos => rw [if_pos ht] at h; exact Option.noConfusion h
  rw [if_neg ht] at h
  cases hw : s.world with
  | none => simp [hw] at h
  | some ws =>
  simp only [hw] at h
  simp only [Option.some.injEq, Prod.mk.injEq] at h
  obtain ⟨hsq, hst⟩ := h
  exact ⟨next_id, plot, fort, fa, cp, ws, rfl, rfl, hf, ha, hsid, hc, rfl,
    hsq.symm, by rw [← hst, ← hsq]⟩

theorem updateFirstFort_find? {entities : List Fort} {gid : Int} {fort : Fort}
    (g : Fort → Fort) (hg : ∀ ft, (g ft).id = ft.id)
    (h : entities.find? (fun f => f.id == gid) = some fort) :
    (updateFirstFort entities gid g).find? (fun f => f.id == gid) = some (g fort) := by
  induction entities with
  | nil => simp at h
  | cons e rest ih =>
      cases he : (e.id == gid) with
      | true =>
          rw [@List.find?_cons_of_pos _ (fun f => f.id == gid) e rest he] at h
          cases h
          have hge : ((g fort).id == gid) = true := by rw [hg fort]; exact he
          simp only [updateFirstFort]
          rw [if_pos he]
          exact @List.find?_cons_of_pos _ (fun f => f.id == gid) (g fort) rest hge
      | false =>
          rw [@List.find?_cons_of_neg _ (fun f => f.id == gid) e rest (by simp [he])] at h
          simp only [updateFirstFort]
          rw [if_neg (by simp [he])]
          rw [@List.find?_cons_of_neg _ (fun f => f.id == gid) e _ (by simp [he]), ih h]

theorem setAssignmentSquadId_find? {assignments : List Assignment}
    {aid sid : Int} {fa : Assignment}
    (h : assignments.find? (fun a => a.id == aid) = some fa) :
    (setAssignmentSquadId assignments aid sid).find? (fun a => a.id == aid) =
      some { fa with squad_id := sid } := by
  induction assignments with
  | nil => simp at h
  | cons a rest ih =>
      cases he : (a.id == aid) with
      | true =>
          rw [@List.find?_cons_of_pos _ (fun a => a.id == aid) a rest he] at h
          cases h
          simp only [setAssignmentSquadId]
          rw [if_pos he]
          exact @List.find?_cons_of_pos _ (fun a => a.id == aid)
            { fa with squad_id := sid } rest he
      | false =>
          rw [@List.find?_cons_of_neg _ (fun a => a.id == aid) a rest (by simp [he])] at h
          simp only [setAssignmentSquadId]
          rw [if_neg (by simp [he])]
          rw [@List.find?_cons_of_neg _ (fun a => a.id == aid) a _ (by simp [he]), ih h]

/-- C1: a successful `makeSquad` returns a squad whose id is the
pre-increment value of the next-squad-id counter; afterwards the counter is
exactly one greater; the squad has exactly `N` position slots where `N` is
the leader position's configured squad size; and the final state is exactly
the source-order commit composition — increment the counter, append the
squad id to the settlement entity's squad-id list, append the squad to the
world squad registry, then set the assignment's squad reference. -/
theorem makeSquad_commit_spec {s : MilState} {aid : Int} {sq : Squad}
    {s' : MilState} (h : makeSquad s aid = some (some sq, s')) :
    ∃ next_id plot fort fa cp ws,
      s.squad_next_id = some next_id ∧
      s.plotinfo = some plot ∧
      s.entities.find? (fun f => f.id == plot.group_id) = some fort ∧
      fort.assignments.find? (fun a => a.id == aid) = some fa ∧
      fort.own.find? (fun p => p.id == fa.position_id) = some cp ∧
      s.world = some ws ∧
      sq.id = next_id ∧
      s'.squad_next_id = some (next_id + 1) ∧
      sq.positions.length = cp.squad_size.toNat ∧
      s' = setAssignmentRef
        (appendWorldSquad (appendEntitySquadId (incrementCounter s) plot.group_id sq.id) sq)
        plot.group_id aid sq.id ∧
      (∃ fort', s'.entities.find? (fun f => f.id == plot.group_id) = some fort' ∧
        fort'.squads = fort.squads ++ [sq.id] ∧
        (∃ fa', fort'.assignments.find? (fun a => a.id == aid) = some fa' ∧
          fa'.squad_id = sq.id)) ∧
      s'.world = some (ws ++ [sq]) := by
  obtain ⟨next_id, plot, fort, fa, cp, ws, hn, hp, hf, ha, hsid, hc, hw, hsq, hst⟩ :=
    makeSquad_success_inv h
  refine ⟨next_id, plot, fort, fa, cp, ws, hn, hp, hf, ha, hc, hw, ?_, ?_, ?_, ?_, ?_, ?_⟩
  · rw [hsq]; rfl
  · rw [hst]
    simp [commitSquad, setAssignmentRef, appendWorldSquad, appendEntitySquadId,
      incrementCounter, hn]
  · rw [hsq]; simp [buildSquad]
  · rw [hst]; rfl
  · have h1 := updateFirstFort_find?
      (fun f => { f with squads := f.squads ++ [sq.id] }) (fun ft => rfl) hf
    have h2 := updateFirstFort_find?
      (fun f => { f with assignments := setAssignmentSquadId f.assignments aid sq.id })
      (fun ft => rfl) h1
    refine ⟨{ fort with squads := fort.squads ++ [sq.id], assignments := setAssignmentSquadId fort.assignments aid sq.id }, ?_, rfl, ?_⟩
    · rw [hst]
      simpa [commitSquad, setAssignmentRef, appendWorldSquad, appendEntitySquadId,
        incrementCounter] using h2
    · exact ⟨_, setAssignmentSquadId_find? ha, rfl⟩
  · rw [hst]
    simp [commitSquad, setAssignmentRef, appendWorldSquad, appendEntitySquadId,
      incrementCounter, hw]

/-- Concrete fixture: a settlement with one vacant assignment (id 5) for a
position (id 10) of squad size 2, all four standard routines configured, the
counter at 7 and time globals present. -/
def testPos0 : EntityPosition := { id := 10, squad_size := 2 }

def testAssign0 : Assignment := { id := 5, position_id := 10, squad_id := -1 }

def testFort0 : Fort := { id := 1, assignments := [testAssign0], own := [testPos0], squads := [] }

def testPlot0 : PlotInfo :=
  { group_id := 1
    routines := ["Off duty", "Staggered training", "Constant training", "Ready"] }

def testState0 : MilState :=
  { squad_next_id := some 7
    plotinfo := some testPlot0
    entities := [testFort0]
    cur_year := some 100
    cur_year_tick := some 50
    world := some [] }

def testSquad0 : Squad := buildSquad 7 testPlot0 testPos0 testAssign0 100 50

def testState0' : MilState := commitSquad testState0 1 5 testSquad0

theorem makeSquad_testState0 :
    makeSquad testState0 5 = some (some testSquad0, testState0') := rfl

/-- Witness for C1 at the concrete fixture. -/
theorem makeSquad_commit_spec_witness :
    ∃ next_id plot fort fa cp ws,
      testState0.squad_next_id = some next_id ∧
      testState0.plotinfo = some plot ∧
      testState0.entities.find? (fun f => f.id == plot.group_id) = some fort ∧
      fort.assignments.find? (fun a => a.id == (5 : Int)) = some fa ∧
      fort.own.find? (fun p => p.id == fa.position_id) = some cp ∧
      testState0.world = some ws ∧
      testSquad0.id = next_id ∧
      testState0'.squad_next_id = some (next_id + 1) ∧
      testSquad0.positions.length = cp.squad_size.toNat ∧
      testState0' = setAssignmentRef
        (appendWorldSquad
          (appendEntitySquadId (incrementCounter testState0) plot.group_id testSquad0.id)
          testSquad0)
        plot.group_id 5 testSquad0.id ∧
      (∃ fort', testState0'.entities.find? (fun f => f.id == plot.group_id) = some fort' ∧
        fort'.squads = fort.squads ++ [testSquad0.id] ∧
        (∃ fa', fort'.assignments.find? (fun a => a.id == (5 : Int)) = some fa' ∧
          fa'.squad_id = testSquad0.id)) ∧
      testState0'.world = some (ws ++ [testSquad0]) :=
  makeSquad_commit_spec makeSquad_testState0

/-- The guarded precondition failures of `makeSquad`: a missing next-squad-id
or plot-info global; or (with the settlement entity resolved) an assignment id
matching no assignment, an assignment already bound to a squad (reference not
the `-1` sentinel), or a parent position missing from the entity. -/
def makeSquadPrecondFails (s : MilState) (aid : Int) : Prop :=
  s.squad_next_id = none ∨ s.plotinfo = none ∨
  (∃ plot fort, s.plotinfo = some plot ∧
    s.entities.find? (fun f => f.id == plot.group_id) = some fort ∧
    (fort.assignments.find? (fun a => a.id == aid) = none ∨
     (∃ fa, fort.assignments.find? (fun a => a.id == aid) = some fa ∧
       (fa.squad_id ≠ -1 ∨
        fort.own.find? (fun p => p.id == fa.position_id) = none))))

/-- C2: whenever any of the checked preconditions fails, `makeSquad` returns
no squad and the state is returned entirely unchanged (counter, entity
squad-id list, world registry and assignment reference untouched). -/
theorem makeSquad_noop_on_precond_failure {s : MilState} {aid : Int}
    (hfail : makeSquadPrecondFails s aid) :
    makeSquad s aid = some (none, s) := by
  unfold makeSquad
  rcases hfail with hn | hp | ⟨plot, fort, hp, hf, hrest⟩
  · simp [hn]
  · cases hn : s.squad_next_id with
    | none => simp [hn]
    | some next_id => simp [hn, hp]
  · cases hn : s.squad_next_id with
    | none => simp [hn]
    | some next_id =>
      simp only [hn, hp, hf]
      rcases hrest with ha | ⟨fa, ha, hsid | hpos⟩
      · simp [ha]
      · simp [ha, if_pos hsid]
      · simp only [ha]
        by_cases hb : fa.squad_id = -1
        · simp [hb, hpos]
        · simp [hb]

/-- Fixture for C2: the same settlement but the assignment is already bound
to squad 3. -/
def testFortBound : Fort :=
  { id := 1
    assignments := [{ id := 5, position_id := 10, squad_id := 3 }]
    own := [testPos0]
    squads := [] }

def testStateBound : MilState :=
  { testState0 with entities := [testFortBound] }

/-- Witness for C2: creating a squad for an already-bound assignment is
rejected without touching the state. -/
theorem makeSquad_noop_witness :
    makeSquad testStateBound 5 = some (none, testStateBound) :=
  makeSquad_noop_on_precond_failure
    (Or.inr (Or.inr ⟨testPlot0, testFortBound, rfl, rfl,
      Or.inr ⟨{ id := 5, position_id := 10, squad_id := 3 }, rfl,
        Or.inl (by decide)⟩⟩))

/-- Fault fixtures for C9: the settlement entity missing from the entity
registry, the current-year global missing while a training routine is
configured, and the world global missing. -/
def testStateNoFort : MilState :=
  { squad_next_id := some 0
    plotinfo := some { group_id := 0, routines := [] }
    entities := []
    cur_year := some 0
    cur_year_tick := some 0
    world := some [] }

def testStateNoYear : MilState := { testState0 with cur_year := none }

def testStateNoWorld : MilState := { testState0 with world := none }

/-- C9: `makeSquad` checks only the next-squad-id and plot-info globals.  It
is total (never faults) whenever the settlement entity resolves and the
current-year, year-tick and world globals are present; and it does fault —
dereferencing a null pointer, modelled as result `none` — when the guards
pass but the settlement entity is missing, when the time globals are missing
while a training routine is configured, or when the world global is missing
at commit. -/
theorem makeSquad_total_iff_globals :
    (∀ (s : MilState) (aid : Int),
      (∀ plot, s.plotinfo = some plot →
        (s.entities.find? (fun f => f.id == plot.group_id)).isSome = true) →
      s.cur_year.isSome = true →
      s.cur_year_tick.isSome = true →
      s.world.isSome = true →
      (makeSquad s aid).isSome = true) ∧
    (∃ (s : MilState) (aid : Int), s.squad_next_id.isSome = true ∧
      s.plotinfo.isSome = true ∧ makeSquad s aid = none) ∧
    (∃ (s : MilState) (aid : Int), s.cur_year = none ∧ makeSquad s aid = none) ∧
    (∃ (s : MilState) (aid : Int), s.cur_year.isSome = true ∧
      s.cur_year_tick.isSome = true ∧ s.world = none ∧ makeSquad s aid = none) := by
  refine ⟨?_, ⟨testStateNoFort, 0, rfl, rfl, rfl⟩,
    ⟨testStateNoYear, 5, rfl, rfl⟩, ⟨testStateNoWorld, 5, rfl, rfl, rfl, rfl⟩⟩
  intro s aid hfort hy ht hw
  unfold makeSquad
  cases hn : s.squad_next_id with
  | none => simp
  | some next_id =>
  cases hp : s.plotinfo with
  | none => simp
  | some plot =>
  simp only [hn, hp]
  cases hf : s.entities.find? (fun f => f.id == plot.group_id) with
  | none =>
      have := hfort plot hp
      rw [hf] at this
      simp at this
  | some fort =>
  simp only [hf]
  cases ha : fort.assignments.find? (fun a => a.id == aid) with
  | none => simp [ha]
  | some fa =>
  simp only [ha]
  by_cases hb : fa.squad_id = -1
  case neg => simp [hb]
  simp only [hb, ne_eq, not_true_eq_false, if_false, ite_false]
  cases hc : fort.own.find? (fun p => p.id == fa.position_id) with
  | none => simp [hc]
  | some cp =>
  simp only [hc]
  have hcond : ¬(plot.routines.any routineTrains = true ∧
      (s.cur_year = none ∨ s.cur_year_tick = none)) := by
    rintro ⟨-, hcase⟩
    cases hcase with
    | inl hcy => rw [hcy] at hy; simp at hy
    | inr hct => rw [hct] at ht; simp at ht
  rw [if_neg hcond]
  cases hwc : s.world with
  | none => rw [hwc] at hw; simp at hw
  | some ws => simp [hwc]

/-- Witness for C9's universally quantified totality part, at the concrete
success fixture. -/
theorem makeSquad_total_witness : (makeSquad testState0 5).isSome = true :=
  makeSquad_total_iff_globals.1 testState0 5
    (fun plot hp => by
      have hplot : testPlot0 = plot := by injection hp
      rw [← hplot]
      rfl)
    rfl rfl rfl

theorem map_base_getElem? {ss : Int} {g : ScheduleEntry → ScheduleEntry} {i : Nat}
    {e : ScheduleEntry}
    (he : ((List.replicate 12 (freshEntry ss)).map g)[i]? = some e) :
    e = g (freshEntry ss) := by
  rw [List.getElem?_map, List.getElem?_replicate] at he
  by_cases hi : i < 12
  · rw [if_pos hi] at he
    simp only [Option.map_some', Option.some.injEq] at he
    exact he.symm
  · rw [if_neg hi] at he
    simp at he

theorem buildRoutineSchedule_staggered_getElem? (ss next_id y t : Int) (i : Nat)
    (hi : i < 12) :
    (buildRoutineSchedule "Staggered training" ss next_id y t)[i]? =
      if i ∈ (if next_id % 2 = 1 then ([3, 4, 5, 9, 10, 11] : List Nat)
              else ([0, 1, 2, 6, 7, 8] : List Nat))
      then some (trainEntry ss y t (freshEntry ss))
      else some (freshEntry ss) := by
  unfold buildRoutineSchedule
  rw [if_neg (by decide : ¬("Staggered training" : String) = "Off duty"),
    if_pos (rfl : ("Staggered training" : String) = "Staggered training")]
  by_cases hp2 : next_id % 2 = 1
  · rw [if_pos hp2,
      applyTrainingAt_getElem? ss y t [3, 4, 5, 9, 10, 11] (by decide) _ i,
      List.getElem?_replicate, if_pos hi]
    split <;> simp
  · rw [if_neg hp2,
      applyTrainingAt_getElem? ss y t [0, 1, 2, 6, 7, 8] (by decide) _ i,
      List.getElem?_replicate, if_pos hi]
    split <;> simp

theorem buildRoutineSchedule_constant_getElem? (ss next_id y t : Int) (i : Nat)
    (hi : i < 12) :
    (buildRoutineSchedule "Constant training" ss next_id y t)[i]? =
      some (trainEntry ss y t (freshEntry ss)) := by
  unfold buildRoutineSchedule
  rw [if_neg (by decide : ¬("Constant training" : String) = "Off duty"),
    if_neg (by decide : ¬("Constant training" : String) = "Staggered training"),
    if_pos (rfl : ("Constant training" : String) = "Constant training"),
    applyTrainingAt_getElem? ss y t (List.range 12) (List.nodup_range 12) _ i,
    List.getElem?_replicate, if_pos hi, if_pos (List.mem_range.mpr hi)]
  simp

theorem buildRoutineSchedule_orders_inv {rname : String} {ss next_id y t : Int}
    {i : Nat} {e : ScheduleEntry}
    (he : (buildRoutineSchedule rname ss next_id y t)[i]? = some e) :
    (∀ o ∈ e.orders, o.min_count = ss ∧ o.positions_len = ss.toNat ∧
      o.order.year = y ∧ o.order.year_tick = t ∧ o.order.unk_v40_3 = -1) ∧
    (e.orders ≠ [] → e.uniform_mode = 0) := by
  have hfresh : ∀ g : ScheduleEntry → ScheduleEntry,
      (((List.replicate 12 (freshEntry ss)).map g)[i]? = some e) →
      (∀ x, (g x).orders = x.orders) →
      (∀ o ∈ e.orders, o.min_count = ss ∧ o.positions_len = ss.toNat ∧
        o.order.year = y ∧ o.order.year_tick = t ∧ o.order.unk_v40_3 = -1) ∧
      (e.orders ≠ [] → e.uniform_mode = 0) := by
    intro g hmap hg
    have := map_base_getElem? hmap
    subst this
    refine ⟨?_, ?_⟩
    · intro o ho
      rw [hg (freshEntry ss)] at ho
      simp [freshEntry] at ho
    · intro hne
      rw [hg (freshEntry ss)] at hne
      simp [freshEntry] at hne
  have htrain : ∀ idx : List Nat,
      ((applyTrainingAt ss y t (List.replicate 12 (freshEntry ss)) idx)[i]? = some e) →
      idx.Nodup →
      (∀ o ∈ e.orders, o.min_count = ss ∧ o.positions_len = ss.toNat ∧
        o.order.year = y ∧ o.order.year_tick = t ∧ o.order.unk_v40_3 = -1) ∧
      (e.orders ≠ [] → e.uniform_mode = 0) := by
    intro idx happ hnd
    rw [applyTrainingAt_getElem? ss y t idx hnd _ i, List.getElem?_replicate] at happ
    by_cases hi : i < 12
    · rw [if_pos hi] at happ
      by_cases him : i ∈ idx
      · rw [if_pos him] at happ
        simp only [Option.map_some', Option.some.injEq] at happ
        subst happ
        constructor
        · intro o ho
          simp only [trainEntry, insertTrainingOrder, freshEntry, List.nil_append,
            List.mem_singleton] at ho
          subst ho
          exact ⟨rfl, rfl, rfl, rfl, rfl⟩
        · intro _
          rfl
      · rw [if_neg him] at happ
        simp only [Option.some.injEq] at happ
        subst happ
        exact ⟨fun o ho => by simp [freshEntry] at ho, fun hne => by simp [freshEntry] at hne⟩
    · rw [if_neg hi] at happ
      simp at happ
  unfold buildRoutineSchedule at he
  split at he
  · exact hfresh _ he (fun x => rfl)
  · split at he
    · split at he
      · exact htrain [3, 4, 5, 9, 10, 11] he (by decide)
      · exact htrain [0, 1, 2, 6, 7, 8] he (by decide)
    · split at he
      · exact htrain (List.range 12) he (List.nodup_range 12)
      · split at he
        · exact hfresh _ he (fun x => rfl)
        · exact hfresh _ he (fun x => rfl)

/-- C3: on a successful `makeSquad`, a routine named exactly
"Staggered training" trains exactly slots {3,4,5,9,10,11} (orders present,
sleep-mode 0) and leaves the other six slots without orders when the
pre-increment next-squad-id counter is odd, and exactly slots {0,1,2,6,7,8}
when it is even. -/
theorem makeSquad_staggered_training {s : MilState} {aid : Int} {sq : Squad}
    {s' : MilState} {next_id : Int} {plot : PlotInfo} {k : Nat}
    (h : makeSquad s aid = some (some sq, s'))
    (hn : s.squad_next_id = some next_id)
    (hp : s.plotinfo = some plot)
    (hk : plot.routines[k]? = some "Staggered training") :
    ∃ es, sq.schedule[k]? = some es ∧
      ((next_id % 2 = 1 →
        ∀ i, i < 12 →
          ∃ e, es[i]? = some e ∧
            (i ∈ ([3, 4, 5, 9, 10, 11] : List Nat) →
              e.orders ≠ [] ∧ e.sleep_mode = 0) ∧
            (i ∉ ([3, 4, 5, 9, 10, 11] : List Nat) → e.orders = [])) ∧
       (¬next_id % 2 = 1 →
        ∀ i, i < 12 →
          ∃ e, es[i]? = some e ∧
            (i ∈ ([0, 1, 2, 6, 7, 8] : List Nat) →
              e.orders ≠ [] ∧ e.sleep_mode = 0) ∧
            (i ∉ ([0, 1, 2, 6, 7, 8] : List Nat) → e.orders = []))) := by
  obtain ⟨next_id', plot', fort, fa, cp, ws, hn', hp', hf, ha, hsid, hc, hw, hsq, hst⟩ :=
    makeSquad_success_inv h
  rw [hn] at hn'
  rw [hp] at hp'
  injection hn' with hn2
  injection hp' with hp2
  subst hn2
  subst hp2
  subst hsq
  have hsch : (buildSquad next_id plot cp fa (s.cur_year.getD 0)
      (s.cur_year_tick.getD 0)).schedule[k]? =
      some (buildRoutineSchedule "Staggered training" cp.squad_size next_id
        (s.cur_year.getD 0) (s.cur_year_tick.getD 0)) := by
    simp [buildSquad, List.getElem?_map, hk]
  refine ⟨_, hsch, ?_, ?_⟩
  · intro hpar i hi
    have hg := buildRoutineSchedule_staggered_getElem? cp.squad_size next_id
      (s.cur_year.getD 0) (s.cur_year_tick.getD 0) i hi
    rw [if_pos hpar] at hg
    by_cases him : i ∈ ([3, 4, 5, 9, 10, 11] : List Nat)
    · rw [if_pos him] at hg
      exact ⟨_, hg, fun _ => ⟨by simp [trainEntry, insertTrainingOrder], rfl⟩,
        fun hnm => absurd him hnm⟩
    · rw [if_neg him] at hg
      exact ⟨_, hg, fun hm => absurd hm him, fun _ => rfl⟩
  · intro hpar i hi
    have hg := buildRoutineSchedule_staggered_getElem? cp.squad_size next_id
      (s.cur_year.getD 0) (s.cur_year_tick.getD 0) i hi
    rw [if_neg hpar] at hg
    by_cases him : i ∈ ([0, 1, 2, 6, 7, 8] : List Nat)
    · rw [if_pos him] at hg
      exact ⟨_, hg, fun _ => ⟨by simp [trainEntry, insertTrainingOrder], rfl⟩,
        fun hnm => absurd him hnm⟩
    · rw [if_neg him] at hg
      exact ⟨_, hg, fun hm => absurd hm him, fun _ => rfl⟩

/-- Witness for C3: with the counter at 7 (odd), routine index 1 of the
fixture ("Staggered training") trains exactly slots {3,4,5,9,10,11}. -/
theorem makeSquad_staggered_witness :
    ∃ es, testSquad0.schedule[1]? = some es ∧
      (((7 : Int) % 2 = 1 →
        ∀ i, i < 12 →
          ∃ e, es[i]? = some e ∧
            (i ∈ ([3, 4, 5, 9, 10, 11] : List Nat) →
              e.orders ≠ [] ∧ e.sleep_mode = 0) ∧
            (i ∉ ([3, 4, 5, 9, 10, 11] : List Nat) → e.orders = [])) ∧
       (¬(7 : Int) % 2 = 1 →
        ∀ i, i < 12 →
          ∃ e, es[i]? = some e ∧
            (i ∈ ([0, 1, 2, 6, 7, 8] : List Nat) →
              e.orders ≠ [] ∧ e.sleep_mode = 0) ∧
            (i ∉ ([0, 1, 2, 6, 7, 8] : List Nat) → e.orders = []))) :=
  makeSquad_staggered_training makeSquad_testState0 rfl rfl rfl

/-- C4: on a successful `makeSquad`, every order attached to any schedule
slot has minimum-participant count equal to the leader position's squad size
`N`, a per-position assignment array of size `N`, a training record
timestamped with the current-year and year-tick globals with reserved field
`-1`; every slot holding an order has final uniform-mode 0; and under a
routine named "Constant training" all 12 slots hold an order and have
sleep-mode 0. -/
theorem makeSquad_training_order_shape {s : MilState} {aid : Int} {sq : Squad}
    {s' : MilState} {year tick : Int}
    (h : makeSquad s aid = some (some sq, s'))
    (hy : s.cur_year = some year)
    (ht : s.cur_year_tick = some tick) :
    ∃ plot fort fa cp,
      s.plotinfo = some plot ∧
      s.entities.find? (fun f => f.id == plot.group_id) = some fort ∧
      fort.assignments.find? (fun a => a.id == aid) = some fa ∧
      fort.own.find? (fun p => p.id == fa.position_id) = some cp ∧
      (∀ (k : Nat) (es : List ScheduleEntry), sq.schedule[k]? = some es →
        ∀ (i : Nat) (e : ScheduleEntry), es[i]? = some e →
        (∀ o ∈ e.orders, o.min_count = cp.squad_size ∧
          o.positions_len = cp.squad_size.toNat ∧
          o.order.year = year ∧ o.order.year_tick = tick ∧
          o.order.unk_v40_3 = -1) ∧
        (e.orders ≠ [] → e.uniform_mode = 0)) ∧
      (∀ k : Nat, plot.routines[k]? = some "Constant training" →
        ∃ es : List ScheduleEntry, sq.schedule[k]? = some es ∧
          ∀ i, i < 12 → ∃ e : ScheduleEntry,
            es[i]? = some e ∧ e.orders ≠ [] ∧ e.sleep_mode = 0) := by
  obtain ⟨next_id, plot, fort, fa, cp, ws, hn, hp, hf, ha, hsid, hc, hw, hsq, hst⟩ :=
    makeSquad_success_inv h
  have hgy : s.cur_year.getD 0 = year := by rw [hy]; rfl
  have hgt : s.cur_year_tick.getD 0 = tick := by rw [ht]; rfl
  rw [hgy, hgt] at hsq
  subst hsq
  refine ⟨plot, fort, fa, cp, hp, hf, ha, hc, ?_, ?_⟩
  · intro k es hes i e he
    have hex : ∃ rname, plot.routines[k]? = some rname ∧
        es = buildRoutineSchedule rname cp.squad_size next_id year tick := by
      simp only [buildSquad, List.getElem?_map] at hes
      cases hr : plot.routines[k]? with
      | none => rw [hr] at hes; simp at hes
      | some rname =>
          rw [hr] at hes
          simp only [Option.map_some', Option.some.injEq] at hes
          exact ⟨rname, rfl, hes.symm⟩
    obtain ⟨rname, _, hesr⟩ := hex
    subst hesr
    exact buildRoutineSchedule_orders_inv he
  · intro k hk
    have hsch : (buildSquad next_id plot cp fa year tick).schedule[k]? =
        some (buildRoutineSchedule "Constant training" cp.squad_size next_id
          year tick) := by
      simp [buildSquad, List.getElem?_map, hk]
    refine ⟨_, hsch, ?_⟩
    intro i hi
    have hg := buildRoutineSchedule_constant_getElem? cp.squad_size next_id
      year tick i hi
    exact ⟨_, hg, by simp [trainEntry, insertTrainingOrder], rfl⟩

/-- Witness for C4 at the concrete fixture (year 100, tick 50). -/
theorem makeSquad_training_order_witness :
    ∃ plot fort fa cp,
      testState0.plotinfo = some plot ∧
      testState0.entities.find? (fun f => f.id == plot.group_id) = some fort ∧
      fort.assignments.find? (fun a => a.id == (5 : Int)) = some fa ∧
      fort.own.find? (fun p => p.id == fa.position_id) = some cp ∧
      (∀ (k : Nat) (es : List ScheduleEntry), testSquad0.schedule[k]? = some es →
        ∀ (i : Nat) (e : ScheduleEntry), es[i]? = some e →
        (∀ o ∈ e.orders, o.min_count = cp.squad_size ∧
          o.positions_len = cp.squad_size.toNat ∧
          o.order.year = (100 : Int) ∧ o.order.year_tick = (50 : Int) ∧
          o.order.unk_v40_3 = -1) ∧
        (e.orders ≠ [] → e.uniform_mode = 0)) ∧
      (∀ k : Nat, plot.routines[k]? = some "Constant training" →
        ∃ es : List ScheduleEntry, testSquad0.schedule[k]? = some es ∧
          ∀ i, i < 12 → ∃ e : ScheduleEntry,
            es[i]? = some e ∧ e.orders ≠ [] ∧ e.sleep_mode = 0) :=
  makeSquad_training_order_shape makeSquad_testState0 rfl rfl

/-- Witness for C5: a registry with a missing id, an aliased squad and an
alias-free squad, exercising all three branches. -/
theorem getSquadName_spec_witness :
    (getSquadName (fun _ _ => "translated") [] 3 = "") ∧
    (getSquadName (fun _ _ => "translated") [{ testSquad0 with alias_ := "The Axes" }]
      7 = "The Axes") ∧
    (getSquadName (fun _ _ => "translated") [testSquad0] 7 = "translated") := by
  refine ⟨(getSquadName_spec (fun _ _ => "translated") [] 3).1 rfl,
    (getSquadName_spec (fun _ _ => "translated")
      [{ testSquad0 with alias_ := "The Axes" }] 7).2.1
      { testSquad0 with alias_ := "The Axes" } rfl (by decide),
    (getSquadName_spec (fun _ _ => "translated") [testSquad0] 7).2.2
      testSquad0 rfl rfl⟩

/-- Insert an element into a list, placing it before the first element whose
key is not smaller — the insertion step of the key-ordered sort used to model
`std::sort` on the room lists. -/
def insertByKey (key : α → Int) (r : α) : List α → List α
  | [] => [r]
  | x :: xs => if key r ≤ key x then r :: x :: xs else x :: insertByKey key r xs

/-- Key-ordered insertion sort, modelling the `std::sort` calls of
`updateRoomAssignments` (the claims depend only on key order, which any
correct sort produces; ties between equal keys cannot arise on the lists the
function sorts, since it inserts only when no record with that key exists). -/
def sortByKey (key : α → Int) : List α → List α
  | [] => []
  | x :: xs => insertByKey key x (sortByKey key xs)

theorem mem_insertByKey {key : α → Int} {r a : α} :
    ∀ {l : List α}, a ∈ insertByKey key r l ↔ a = r ∨ a ∈ l
  | [] => by simp [insertByKey]
  | x :: xs => by
      by_cases hc : key r ≤ key x
      · simp [insertByKey, if_pos hc]
      · simp only [insertByKey, if_neg hc, List.mem_cons, mem_insertByKey]
        tauto

theorem pairwise_insertByKey {key : α → Int} {r : α} :
    ∀ {l : List α}, List.Pairwise (fun a b => key a ≤ key b) l →
      List.Pairwise (fun a b => key a ≤ key b) (insertByKey key r l)
  | [], _ => by simp [insertByKey]
  | x :: xs, h => by
      rw [List.pairwise_cons] at h
      by_cases hc : key r ≤ key x
      · rw [insertByKey, if_pos hc, List.pairwise_cons]
        refine ⟨?_, List.pairwise_cons.mpr h⟩
        intro b hb
        rcases List.mem_cons.mp hb with hb | hb
        · rw [hb]; exact hc
        · exact le_trans hc (h.1 b hb)
      · rw [insertByKey, if_neg hc, List.pairwise_cons]
        refine ⟨?_, pairwise_insertByKey h.2⟩
        intro b hb
        rcases mem_insertByKey.mp hb with hb | hb
        · rw [hb]; exact le_of_not_le hc
        · exact h.1 b hb

theorem pairwise_sortByKey {key : α → Int} :
    ∀ (l : List α), List.Pairwise (fun a b => key a ≤ key b) (sortByKey key l)
  | [] => by simp [sortByKey]
  | x :: xs => pairwise_insertByKey (pairwise_sortByKey xs)

theorem mem_sortByKey {key : α → Int} {a : α} :
    ∀ {l : List α}, a ∈ sortByKey key l ↔ a ∈ l
  | [] => Iff.rfl
  | x :: xs => by
      rw [sortByKey, mem_insertByKey, List.mem_cons, mem_sortByKey]

/-- The pointer write `room_from_squad->mode = flags`, resolved to the first
list entry with the given building id (the entry the earlier lookup found, or
the single freshly inserted one). -/
def setModeFirstRoom (rooms : List Room) (bid : Int) (flags : Nat) : List Room :=
  match rooms with
  | [] => []
  | r :: rest =>
      if r.building_id == bid then { r with mode := flags } :: rest
      else r :: setModeFirstRoom rest bid flags

/-- The pointer write `room_from_building->mode = flags`, resolved to the
first list entry with the given squad id. -/
def setModeFirstRI (ris : List RoomInfo) (sid : Int) (flags : Nat) : List RoomInfo :=
  match ris with
  | [] => []
  | ri :: rest =>
      if ri.squad_id == sid then { ri with mode := flags } :: rest
      else ri :: setModeFirstRI rest sid flags

/-- Replace, in place, the first squad whose id matches. -/
def updateFirstSquad (squads : List Squad) (sid : Int) (f : Squad → Squad) :
    List Squad :=
  match squads with
  | [] => []
  | sq :: rest =>
      if sq.id == sid then f sq :: rest
      else sq :: updateFirstSquad rest sid f

/-- Replace, in place, the first building whose id matches. -/
def updateFirstBuilding (buildings : List Building) (bid : Int)
    (f : Building → Building) : List Building :=
  match buildings with
  | [] => []
  | b :: rest =>
      if b.id == bid then f b :: rest
      else b :: updateFirstBuilding rest bid f

/-- `Military::updateRoomAssignments`.  Resolve the squad and the civilian
zone (any other building kind counts as not found); compute the two
directional lookups; then insert, flag-update, sort and prune exactly as the
source does, writing the modified squad/building back into their
registries. -/
def updateRoomAssignments (squads : List Squad) (buildings : List Building)
    (squad_id civzone_id : Int) (flags : Nat) : List Squad × List Building :=
  match squads.find? (fun sq => sq.id == squad_id) with
  | none => (squads, buildings)
  | some squad =>
    match buildings.find? (fun b => b.id == civzone_id) with
    | none => (squads, buildings)
    | some b =>
      if b.is_civzone = false then (squads, buildings)
      else
        let rfs := squad.rooms.find? (fun r => r.building_id == civzone_id)
        let rfb := b.squad_room_info.find? (fun ri => ri.squad_id == squad_id)
        if flags = 0 ∧ rfs = none ∧ rfb = none then (squads, buildings)
        else
          let rooms1 :=
            if ¬(flags = 0 ∧ rfs = none) ∧ rfs = none then
              sortByKey (fun r => r.building_id)
                (squad.rooms ++ [{ building_id := civzone_id, mode := 0 }])
            else squad.rooms
          let sri1 :=
            if rfb = none then
              sortByKey (fun ri => ri.squad_id)
                (b.squad_room_info ++ [{ squad_id := squad_id, mode := 0 }])
            else b.squad_room_info
          let rooms2 :=
            if ¬(flags = 0 ∧ rfs = none) then setModeFirstRoom rooms1 civzone_id flags
            else rooms1
          let sri2 := setModeFirstRI sri1 squad_id flags
          let rooms3 :=
            if flags = 0 ∧ ¬(flags = 0 ∧ rfs = none) then
              rooms2.filter (fun r => !(r.building_id == civzone_id))
            else rooms2
          (updateFirstSquad squads squad_id (fun sq => { sq with rooms := rooms3 }),
           updateFirstBuilding buildings civzone_id
             (fun bb => { bb with squad_room_info := sri2 }))

theorem setModeFirstRoom_map_key (bid : Int) (flags : Nat) :
    ∀ (l : List Room), (setModeFirstRoom l bid flags).map (fun r => r.building_id) =
      l.map (fun r => r.building_id)
  | [] => rfl
  | r :: rest => by
      by_cases hc : (r.building_id == bid) = true
      · simp [setModeFirstRoom, hc]
      · simp only [setModeFirstRoom, Bool.not_eq_true] at hc ⊢
        rw [hc]
        simp [setModeFirstRoom_map_key bid flags rest]

theorem setModeFirstRI_map_key (sid : Int) (flags : Nat) :
    ∀ (l : List RoomInfo), (setModeFirstRI l sid flags).map (fun ri => ri.squad_id) =
      l.map (fun ri => ri.squad_id)
  | [] => rfl
  | ri :: rest => by
      by_cases hc : (ri.squad_id == sid) = true
      · simp [setModeFirstRI, hc]
      · simp only [setModeFirstRI, Bool.not_eq_true] at hc ⊢
        rw [hc]
        simp [setModeFirstRI_map_key sid flags rest]

theorem pairwise_setModeFirstRoom {l : List Room} {bid : Int} {flags : Nat}
    (h : List.Pairwise (fun a b => a.building_id ≤ b.building_id) l) :
    List.Pairwise (fun a b => a.building_id ≤ b.building_id)
      (setModeFirstRoom l bid flags) := by
  have h1 : ((l.map (fun r => r.building_id)).Pairwise (· ≤ ·)) :=
    List.pairwise_map.mpr h
  rw [← setModeFirstRoom_map_key bid flags l] at h1
  exact List.pairwise_map.mp h1

theorem pairwise_setModeFirstRI {l : List RoomInfo} {sid : Int} {flags : Nat}
    (h : List.Pairwise (fun a b => a.squad_id ≤ b.squad_id) l) :
    List.Pairwise (fun a b => a.squad_id ≤ b.squad_id)
      (setModeFirstRI l sid flags) := by
  have h1 : ((l.map (fun ri => ri.squad_id)).Pairwise (· ≤ ·)) :=
    List.pairwise_map.mpr h
  rw [← setModeFirstRI_map_key sid flags l] at h1
  exact List.pairwise_map.mp h1

theorem exists_setModeFirstRoom {bid : Int} {flags : Nat} :
    ∀ {l : List Room}, (∃ r ∈ l, r.building_id = bid) →
      ∃ r ∈ setModeFirstRoom l bid flags, r.building_id = bid ∧ r.mode = flags
  | [], h => by simp at h
  | x :: xs, h => by
      by_cases hc : (x.building_id == bid) = true
      · refine ⟨{ x with mode := flags }, ?_, eq_of_beq hc, rfl⟩
        rw [setModeFirstRoom, if_pos hc]
        exact List.mem_cons_self _ _
      · obtain ⟨r, hr, hrb⟩ := h
        rcases List.mem_cons.mp hr with h1 | h1
        · subst h1
          exact absurd (beq_iff_eq.mpr hrb) hc
        · obtain ⟨r', hm, hb2, hmode⟩ := exists_setModeFirstRoom ⟨r, h1, hrb⟩
          refine ⟨r', ?_, hb2, hmode⟩
          rw [setModeFirstRoom, if_neg hc]
          exact List.mem_cons_of_mem _ hm

theorem exists_setModeFirstRI {sid : Int} {flags : Nat} :
    ∀ {l : List RoomInfo}, (∃ ri ∈ l, ri.squad_id = sid) →
      ∃ ri ∈ setModeFirstRI l sid flags, ri.squad_id = sid ∧ ri.mode = flags
  | [], h => by simp at h
  | x :: xs, h => by
      by_cases hc : (x.squad_id == sid) = true
      · refine ⟨{ x with mode := flags }, ?_, eq_of_beq hc, rfl⟩
        rw [setModeFirstRI, if_pos hc]
        exact List.mem_cons_self _ _
      · obtain ⟨ri, hr, hrb⟩ := h
        rcases List.mem_cons.mp hr with h1 | h1
        · subst h1
          exact absurd (beq_iff_eq.mpr hrb) hc
        · obtain ⟨ri', hm, hb2, hmode⟩ := exists_setModeFirstRI ⟨ri, h1, hrb⟩
          refine ⟨ri', ?_, hb2, hmode⟩
          rw [setModeFirstRI, if_neg hc]
          exact List.mem_cons_of_mem _ hm

theorem updateFirstSquad_find? {squads : List Squad} {sid : Int} {squad : Squad}
    (f : Squad → Squad) (hf : ∀ q, (f q).id = q.id)
    (h : squads.find? (fun q => q.id == sid) = some squad) :
    (updateFirstSquad squads sid f).find? (fun q => q.id == sid) = some (f squad) := by
  induction squads with
  | nil => simp at h
  | cons q rest ih =>
      cases he : (q.id == sid) with
      | true =>
          rw [@List.find?_cons_of_pos _ (fun q => q.id == sid) q rest he] at h
          cases h
          have hge : ((f squad).id == sid) = true := by rw [hf squad]; exact he
          simp only [updateFirstSquad]
          rw [if_pos he]
          exact @List.find?_cons_of_pos _ (fun q => q.id == sid) (f squad) rest hge
      | false =>
          rw [@List.find?_cons_of_neg _ (fun q => q.id == sid) q rest (by simp [he])] at h
          simp only [updateFirstSquad]
          rw [if_neg (by simp [he])]
          rw [@List.find?_cons_of_neg _ (fun q => q.id == sid) q _ (by simp [he]), ih h]

theorem updateFirstBuilding_find? {buildings : List Building} {bid : Int}
    {b : Building} (f : Building → Building) (hf : ∀ c, (f c).id = c.id)
    (h : buildings.find? (fun c => c.id == bid) = some b) :
    (updateFirstBuilding buildings bid f).find? (fun c => c.id == bid) =
      some (f b) := by
  induction buildings with
  | nil => simp at h
  | cons c rest ih =>
      cases he : (c.id == bid) with
      | true =>
          rw [@List.find?_cons_of_pos _ (fun c => c.id == bid) c rest he] at h
          cases h
          have hge : ((f b).id == bid) = true := by rw [hf b]; exact he
          simp only [updateFirstBuilding]
          rw [if_pos he]
          exact @List.find?_cons_of_pos _ (fun c => c.id == bid) (f b) rest hge
      | false =>
          rw [@List.find?_cons_of_neg _ (fun c => c.id == bid) c rest (by simp [he])] at h
          simp only [updateFirstBuilding]
          rw [if_neg (by simp [he])]
          rw [@List.find?_cons_of_neg _ (fun c => c.id == bid) c _ (by simp [he]), ih h]

/-- C8: `updateRoomAssignments` performs no mutation at all when the squad id
resolves to no squad, when the building id resolves to no building or to a
building that is not a civilian zone, or when the desired flags are all zero
and no association record exists on either side. -/
theorem updateRoomAssignments_noop {squads : List Squad} {buildings : List Building}
    {sid bid : Int} {flags : Nat}
    (hcond : squads.find? (fun sq => sq.id == sid) = none ∨
      (∃ squad, squads.find? (fun sq => sq.id == sid) = some squad ∧
        (buildings.find? (fun b => b.id == bid) = none ∨
         (∃ b, buildings.find? (fun b => b.id == bid) = some b ∧
           (b.is_civzone = false ∨
            (flags = 0 ∧
             squad.rooms.find? (fun r => r.building_id == bid) = none ∧
             b.squad_room_info.find? (fun ri => ri.squad_id == sid) = none)))))) :
    updateRoomAssignments squads buildings sid bid flags = (squads, buildings) := by
  unfold updateRoomAssignments
  rcases hcond with h1 | ⟨squad, hsq, h2⟩
  · simp [h1]
  · rcases h2 with h2 | ⟨b, hb, h3⟩
    · simp [hsq, h2]
    · rcases h3 with h3 | ⟨hf, hrfs, hrfb⟩
      · simp [hsq, hb, h3]
      · simp [hsq, hb, hf, hrfs, hrfb]

/-- C6: synchronizing with a non-zero flag set, when the squad and the
civilian zone both resolve, leaves (creating it if absent) a squad-side room
record for the building id and a zone-side room-info record for the squad id,
both carrying exactly the given flags; and both owning lists remain sorted by
their respective key (building id on the squad side, squad id on the zone
side) afterwards. -/
theorem updateRoomAssignments_nonzero {squads : List Squad}
    {buildings : List Building} {sid bid : Int} {flags : Nat}
    {squad : Squad} {b : Building}
    (hsq : squads.find? (fun q => q.id == sid) = some squad)
    (hb : buildings.find? (fun c => c.id == bid) = some b)
    (hz : b.is_civzone = true)
    (hflags : flags ≠ 0)
    (hs1 : List.Pairwise (fun a c => a.building_id ≤ c.building_id) squad.rooms)
    (hs2 : List.Pairwise (fun a c => a.squad_id ≤ c.squad_id) b.squad_room_info) :
    (∃ squad', (updateRoomAssignments squads buildings sid bid flags).1.find?
        (fun q => q.id == sid) = some squad' ∧
      (∃ r ∈ squad'.rooms, r.building_id = bid ∧ r.mode = flags) ∧
      List.Pairwise (fun a c => a.building_id ≤ c.building_id) squad'.rooms) ∧
    (∃ b', (updateRoomAssignments squads buildings sid bid flags).2.find?
        (fun c => c.id == bid) = some b' ∧
      (∃ ri ∈ b'.squad_room_info, ri.squad_id = sid ∧ ri.mode = flags) ∧
      List.Pairwise (fun a c => a.squad_id ≤ c.squad_id) b'.squad_room_info) := by
  have hrooms : ∀ L1 : List Room,
      (∃ r ∈ L1, r.building_id = bid) →
      List.Pairwise (fun a c => a.building_id ≤ c.building_id) L1 →
      ∃ squad', (updateFirstSquad squads sid
          (fun sq => { sq with rooms := setModeFirstRoom L1 bid flags })).find?
          (fun q => q.id == sid) = some squad' ∧
        (∃ r ∈ squad'.rooms, r.building_id = bid ∧ r.mode = flags) ∧
        List.Pairwise (fun a c => a.building_id ≤ c.building_id) squad'.rooms := by
    intro L1 hex hpw
    exact ⟨_, updateFirstSquad_find? _ (fun q => rfl) hsq,
      exists_setModeFirstRoom hex, pairwise_setModeFirstRoom hpw⟩
  have hsri : ∀ L2 : List RoomInfo,
      (∃ ri ∈ L2, ri.squad_id = sid) →
      List.Pairwise (fun a c => a.squad_id ≤ c.squad_id) L2 →
      ∀ g : Squad → Squad,
      ∃ b', (updateFirstBuilding buildings bid
          (fun bb => { bb with squad_room_info := setModeFirstRI L2 sid flags })).find?
          (fun c => c.id == bid) = some b' ∧
        (∃ ri ∈ b'.squad_room_info, ri.squad_id = sid ∧ ri.mode = flags) ∧
        List.Pairwise (fun a c => a.squad_id ≤ c.squad_id) b'.squad_room_info := by
    intro L2 hex hpw g
    exact ⟨_, updateFirstBuilding_find? _ (fun c => rfl) hb,
      exists_setModeFirstRI hex, pairwise_setModeFirstRI hpw⟩
  cases hrfs : squad.rooms.find? (fun r => r.building_id == bid) with
  | none =>
      cases hrfb : b.squad_room_info.find? (fun ri => ri.squad_id == sid) with
      | none =>
          have hres : updateRoomAssignments squads buildings sid bid flags =
              (updateFirstSquad squads sid (fun sq => { sq with rooms :=
                (setModeFirstRoom (sortByKey (fun r => r.building_id)
                  (squad.rooms ++ [{ building_id := bid, mode := 0 }])) bid flags) }),
               updateFirstBuilding buildings bid (fun bb => { bb with squad_room_info :=
                (setModeFirstRI (sortByKey (fun ri => ri.squad_id)
                  (b.squad_room_info ++ [{ squad_id := sid, mode := 0 }])) sid flags) })) := by
            simp [updateRoomAssignments, hsq, hb, hz, hrfs, hrfb, hflags]
          rw [hres]
          exact ⟨hrooms _ ⟨{ building_id := bid, mode := 0 },
              mem_sortByKey.mpr (List.mem_append_right _ (by simp)), rfl⟩
              (pairwise_sortByKey _),
            hsri _ ⟨{ squad_id := sid, mode := 0 },
              mem_sortByKey.mpr (List.mem_append_right _ (by simp)), rfl⟩
              (pairwise_sortByKey _) id⟩
      | some ri0 =>
          have hres : updateRoomAssignments squads buildings sid bid flags =
              (updateFirstSquad squads sid (fun sq => { sq with rooms :=
                (setModeFirstRoom (sortByKey (fun r => r.building_id)
                  (squad.rooms ++ [{ building_id := bid, mode := 0 }])) bid flags) }),
               updateFirstBuilding buildings bid (fun bb => { bb with squad_room_info :=
                (setModeFirstRI b.squad_room_info sid flags) })) := by
            simp [updateRoomAssignments, hsq, hb, hz, hrfs, hrfb, hflags]
          rw [hres]
          exact ⟨hrooms _ ⟨{ building_id := bid, mode := 0 },
              mem_sortByKey.mpr (List.mem_append_right _ (by simp)), rfl⟩
              (pairwise_sortByKey _),
            hsri _ ⟨ri0, List.mem_of_find?_eq_some hrfb,
              (by have hx := List.find?_some hrfb; exact eq_of_beq hx)⟩ hs2 id⟩
  | some r0 =>
      cases hrfb : b.squad_room_info.find? (fun ri => ri.squad_id == sid) with
      | none =>
          have hres : updateRoomAssignments squads buildings sid bid flags =
              (updateFirstSquad squads sid (fun sq => { sq with rooms :=
                (setModeFirstRoom squad.rooms bid flags) }),
               updateFirstBuilding buildings bid (fun bb => { bb with squad_room_info :=
                (setModeFirstRI (sortByKey (fun ri => ri.squad_id)
                  (b.squad_room_info ++ [{ squad_id := sid, mode := 0 }])) sid flags) })) := by
            simp [updateRoomAssignments, hsq, hb, hz, hrfs, hrfb, hflags]
          rw [hres]
          exact ⟨hrooms _ ⟨r0, List.mem_of_find?_eq_some hrfs,
              (by have hx := List.find?_some hrfs; exact eq_of_beq hx)⟩ hs1,
            hsri _ ⟨{ squad_id := sid, mode := 0 },
              mem_sortByKey.mpr (List.mem_append_right _ (by simp)), rfl⟩
              (pairwise_sortByKey _) id⟩
      | some ri0 =>
          have hres : updateRoomAssignments squads buildings sid bid flags =
              (updateFirstSquad squads sid (fun sq => { sq with rooms :=
                (setModeFirstRoom squad.rooms bid flags) }),
               updateFirstBuilding buildings bid (fun bb => { bb with squad_room_info :=
                (setModeFirstRI b.squad_room_info sid flags) })) := by
            simp [updateRoomAssignments, hsq, hb, hz, hrfs, hrfb, hflags]
          rw [hres]
          exact ⟨hrooms _ ⟨r0, List.mem_of_find?_eq_some hrfs,
              (by have hx := List.find?_some hrfs; exact eq_of_beq hx)⟩ hs1,
            hsri _ ⟨ri0, List.mem_of_find?_eq_some hrfb,
              (by have hx := List.find?_some hrfb; exact eq_of_beq hx)⟩ hs2 id⟩

theorem filter_no_building {bid : Int} :
    ∀ (L : List Room), ∀ r ∈ L.filter (fun r => !(r.building_id == bid)),
      r.building_id ≠ bid := by
  intro L r hr
  have h2 := (List.mem_filter.mp hr).2
  simpa using h2

/-- C7: revoking an association that existed on both sides with non-zero
flags (calling with all-zero flags) removes every squad-side room record for
the building id, while the zone side keeps a record for the squad id whose
flags are now all zero. -/
theorem updateRoomAssignments_revoke {squads : List Squad}
    {buildings : List Building} {sid bid : Int}
    {squad : Squad} {b : Building} {r0 : Room} {ri0 : RoomInfo}
    (hsq : squads.find? (fun q => q.id == sid) = some squad)
    (hb : buildings.find? (fun c => c.id == bid) = some b)
    (hz : b.is_civzone = true)
    (hrfs : squad.rooms.find? (fun r => r.building_id == bid) = some r0)
    (hrfb : b.squad_room_info.find? (fun ri => ri.squad_id == sid) = some ri0)
    (hm0 : r0.mode ≠ 0) (hm1 : ri0.mode ≠ 0) :
    (∃ squad', (updateRoomAssignments squads buildings sid bid 0).1.find?
        (fun q => q.id == sid) = some squad' ∧
      ∀ r ∈ squad'.rooms, r.building_id ≠ bid) ∧
    (∃ b', (updateRoomAssignments squads buildings sid bid 0).2.find?
        (fun c => c.id == bid) = some b' ∧
      ∃ ri ∈ b'.squad_room_info, ri.squad_id = sid ∧ ri.mode = 0) := by
  have hres : updateRoomAssignments squads buildings sid bid 0 =
      (updateFirstSquad squads sid (fun sq => { sq with rooms :=
        ((setModeFirstRoom squad.rooms bid 0).filter
          (fun r => !(r.building_id == bid))) }),
       updateFirstBuilding buildings bid (fun bb => { bb with squad_room_info :=
        (setModeFirstRI b.squad_room_info sid 0) })) := by
    simp [updateRoomAssignments, hsq, hb, hz, hrfs, hrfb]
  rw [hres]
  constructor
  · exact ⟨_, updateFirstSquad_find? _ (fun q => rfl) hsq,
      filter_no_building _⟩
  · exact ⟨_, updateFirstBuilding_find? _ (fun c => rfl) hb,
      exists_setModeFirstRI ⟨ri0, List.mem_of_find?_eq_some hrfb,
        (by have hx := List.find?_some hrfb; exact eq_of_beq hx)⟩⟩

/-- C10: calling with all-zero flags when a squad-side record exists but no
zone-side record does creates a zone-side record with all-zero flags
(inserted into a list sorted by squad id) and removes every squad-side
record for the building id: only the zero-flag zone-side record remains. -/
theorem updateRoomAssignments_zero_creates_zone {squads : List Squad}
    {buildings : List Building} {sid bid : Int}
    {squad : Squad} {b : Building} {r0 : Room}
    (hsq : squads.find? (fun q => q.id == sid) = some squad)
    (hb : buildings.find? (fun c => c.id == bid) = some b)
    (hz : b.is_civzone = true)
    (hrfs : squad.rooms.find? (fun r => r.building_id == bid) = some r0)
    (hrfb : b.squad_room_info.find? (fun ri => ri.squad_id == sid) = none) :
    (∃ squad', (updateRoomAssignments squads buildings sid bid 0).1.find?
        (fun q => q.id == sid) = some squad' ∧
      ∀ r ∈ squad'.rooms, r.building_id ≠ bid) ∧
    (∃ b', (updateRoomAssignments squads buildings sid bid 0).2.find?
        (fun c => c.id == bid) = some b' ∧
      (∃ ri ∈ b'.squad_room_info, ri.squad_id = sid ∧ ri.mode = 0) ∧
      List.Pairwise (fun a c => a.squad_id ≤ c.squad_id) b'.squad_room_info) := by
  have hres : updateRoomAssignments squads buildings sid bid 0 =
      (updateFirstSquad squads sid (fun sq => { sq with rooms :=
        ((setModeFirstRoom squad.rooms bid 0).filter
          (fun r => !(r.building_id == bid))) }),
       updateFirstBuilding buildings bid (fun bb => { bb with squad_room_info :=
        (setModeFirstRI (sortByKey (fun ri => ri.squad_id)
          (b.squad_room_info ++ [{ squad_id := sid, mode := 0 }])) sid 0) })) := by
    simp [updateRoomAssignments, hsq, hb, hz, hrfs, hrfb]
  rw [hres]
  constructor
  · exact ⟨_, updateFirstSquad_find? _ (fun q => rfl) hsq,
      filter_no_building _⟩
  · exact ⟨_, updateFirstBuilding_find? _ (fun c => rfl) hb,
      exists_setModeFirstRI ⟨{ squad_id := sid, mode := 0 },
        mem_sortByKey.mpr (List.mem_append_right _ (by simp)), rfl⟩,
      pairwise_setModeFirstRI (pairwise_sortByKey _)⟩

/-- Fixtures for the room-association claims: squad 7 (no rooms, then with a
flag-5 room for building 30), civilian zone 30 (empty, then with a flag-5
record for squad 7). -/
def testZoneEmpty : Building := { id := 30, is_civzone := true, squad_room_info := [] }

def testZoneRI : Building :=
  { id := 30, is_civzone := true, squad_room_info := [{ squad_id := 7, mode := 5 }] }

def testSquadRooms : Squad :=
  { testSquad0 with rooms := [{ building_id := 30, mode := 5 }] }

/-- Witness for C6: associating squad 7 with zone 30 at flags 5 from scratch. -/
theorem updateRoomAssignments_nonzero_witness :
    (∃ squad', (updateRoomAssignments [testSquad0] [testZoneEmpty] 7 30 5).1.find?
        (fun q => q.id == (7 : Int)) = some squad' ∧
      (∃ r ∈ squad'.rooms, r.building_id = 30 ∧ r.mode = 5) ∧
      List.Pairwise (fun a c => a.building_id ≤ c.building_id) squad'.rooms) ∧
    (∃ b', (updateRoomAssignments [testSquad0] [testZoneEmpty] 7 30 5).2.find?
        (fun c => c.id == (30 : Int)) = some b' ∧
      (∃ ri ∈ b'.squad_room_info, ri.squad_id = 7 ∧ ri.mode = 5) ∧
      List.Pairwise (fun a c => a.squad_id ≤ c.squad_id) b'.squad_room_info) :=
  updateRoomAssignments_nonzero rfl rfl rfl (by decide)
    List.Pairwise.nil List.Pairwise.nil

/-- Witness for C7: revoking the flag-5 association of squad 7 and zone 30. -/
theorem updateRoomAssignments_revoke_witness :
    (∃ squad', (updateRoomAssignments [testSquadRooms] [testZoneRI] 7 30 0).1.find?
        (fun q => q.id == (7 : Int)) = some squad' ∧
      ∀ r ∈ squad'.rooms, r.building_id ≠ 30) ∧
    (∃ b', (updateRoomAssignments [testSquadRooms] [testZoneRI] 7 30 0).2.find?
        (fun c => c.id == (30 : Int)) = some b' ∧
      ∃ ri ∈ b'.squad_room_info, ri.squad_id = 7 ∧ ri.mode = 0) :=
  updateRoomAssignments_revoke rfl rfl rfl rfl rfl (by decide) (by decide)

/-- Witness for C8: all-zero flags with no prior association on either side
is a complete no-op. -/
theorem updateRoomAssignments_noop_witness :
    updateRoomAssignments [testSquad0] [testZoneEmpty] 7 30 0 =
      ([testSquad0], [testZoneEmpty]) :=
  updateRoomAssignments_noop
    (Or.inr ⟨testSquad0, rfl, Or.inr ⟨testZoneEmpty, rfl, Or.inr ⟨rfl, rfl, rfl⟩⟩⟩)

/-- Witness for C10: all-zero flags with only a squad-side record present. -/
theorem updateRoomAssignments_zero_creates_zone_witness :
    (∃ squad', (updateRoomAssignments [testSquadRooms] [testZoneEmpty] 7 30 0).1.find?
        (fun q => q.id == (7 : Int)) = some squad' ∧
      ∀ r ∈ squad'.rooms, r.building_id ≠ 30) ∧
    (∃ b', (updateRoomAssignments [testSquadRooms] [testZoneEmpty] 7 30 0).2.find?
        (fun c => c.id == (30 : Int)) = some b' ∧
      (∃ ri ∈ b'.squad_room_info, ri.squad_id = 7 ∧ ri.mode = 0) ∧
      List.Pairwise (fun a c => a.squad_id ≤ c.squad_id) b'.squad_room_info) :=
  updateRoomAssignments_zero_creates_zone rfl rfl rfl rfl rfl
